import Mathlib

/-!
Verification development for the HiPS tile cache / progressive loading engine
of stellarium-web-engine (src/hips.c).

The C code is shallowly embedded: C ints become `Int` (with `Int.tdiv` /
`Int.tmod` for C's truncating `/` and `%`), the global tile cache becomes an
explicit `HState` value threaded through the functions, and the external
collaborators (the asset byte-fetch layer, the pluggable tile codec, the
worker primitive and survey readiness) are supplied by an `Env` record, as
the spec describes them (spec sections 1 and 6).  `HState` additionally
counts the byte-fetch calls (`nFetch`) and the codec invocations (`nDecode`)
so that "no fetch happened" claims are observable.
-/

set_option maxRecDepth 10000

/- Flag bits.  hips.h is not under src/, so the numeric values of the
HIPS_* flags are modelled as four distinct bits; hips.c only ever tests
them with a bitwise and, so any distinct-bit assignment is equivalent. -/

def HIPS_PLANET : Nat := 1

def HIPS_FORCE_USE_ALLSKY : Nat := 2

def HIPS_LOAD_IN_THREAD : Nat := 4

def HIPS_CACHED_ONLY : Nat := 8

/- Tile flag bits, from the enum at src/hips.c lines 24-33.
TILE_NO_CHILD_0 is bit 0, the other three children are the next bits,
TILE_LOAD_ERROR is bit 4. -/

def TILE_NO_CHILD_0 : Nat := 1

def TILE_LOAD_ERROR : Nat := 16

/-- img_tile_t (src/hips.c lines 73-78): the default payload for image
surveys.  Pixel buffers and GPU textures are opaque; they are modelled by
`Nat` identities. -/
structure ImgTile where
  img : Option Nat
  w : Int
  h : Int
  bpp : Int
  tex : Option Nat
  allskyTex : Option Nat
deriving DecidableEq

/-- The in-flight decode handle of a tile (the `loader` member of tile_t,
src/hips.c lines 50-56): the copied fetched bytes and their size. -/
structure Loader where
  ldata : Nat
  lsize : Int
deriving DecidableEq

/-- tile_t (src/hips.c lines 38-57): position, flag mask, opaque payload
(`none` while pending or after a failed decode) and optional decode
handle. -/
structure Tile where
  posOrder : Int
  posPix : Int
  flags : Nat
  data : Option ImgTile
  loader : Option Loader
deriving DecidableEq

/-- tile_key_t (src/hips.c lines 63-67): survey hash, order, pixel index. -/
structure TileKey where
  khash : Nat
  korder : Int
  kpix : Int
deriving DecidableEq

/-- The mutable global state of hips.c: the shared tile cache `g_cache`
(keyed store, spec section 4.1; cache.c itself is not under src/, so it is
modelled as a partial map without the cost/eviction accounting, which no
claim observes), plus counters of byte-fetch and codec calls. -/
structure HState where
  cache : TileKey → Option Tile
  nFetch : Nat
  nDecode : Nat

/-- struct hips (src/hips.c lines 83-110), restricted to the fields the
embedded functions read. -/
structure Hips where
  hash : Nat
  order : Int
  orderMin : Int
  tileWidth : Int
  ext : String
  releaseDate : ℚ
  allskyNotAvailable : Bool
  properties : List (String × String)

/-- The external collaborators of hips.c, per spec sections 1 and 6:
survey readiness (`hips_is_ready`), the byte-fetch layer
(`asset_get_data2`, keyed here by (order, pix) since the templated tile URL
is injective in them for a fixed survey), the pluggable payload codec
(`settings.create_tile`, returning payload, cost and the 4-bit transparency
mask), whether a pending worker has completed by now, and the texture id
`texture_from_data` would return. -/
structure Env where
  ready : Bool
  fetch : Int → Int → Option Nat × Int × Int
  createTile : Int → Int → Option Nat → Int → Option ImgTile × Int × Nat
  workerDone : Bool
  newTex : Nat

/-- The cache key computed at src/hips.c lines 699-702: order is forced to
-1 when the HIPS_FORCE_USE_ALLSKY flag is set. -/
def tileKey (hips : Hips) (flags : Nat) (order pix : Int) : TileKey :=
  ⟨hips.hash, if flags &&& HIPS_FORCE_USE_ALLSKY ≠ 0 then -1 else order, pix⟩

/-- cache_add / overwrite of one entry. -/
def cacheSet (c : TileKey → Option Tile) (k : TileKey) (t : Tile) :
    TileKey → Option Tile :=
  fun k2 => if k2 = k then some t else c k2

/-- In-place mutation of the tile object a cache entry holds (C mutates
tiles through pointers that alias the cache entry). -/
def cacheModify (c : TileKey → Option Tile) (k : TileKey) (f : Tile → Tile) :
    TileKey → Option Tile :=
  fun k2 => if k2 = k then (c k).map f else c k2

/-- Setting the memoized "this child is missing" bit on a parent tile
(src/hips.c line 751): bit TILE_NO_CHILD_0 shifted by pix mod 4. -/
def markChild (pix : Int) (t : Tile) : Tile :=
  { t with flags := t.flags ||| (TILE_NO_CHILD_0 <<< (Int.tmod pix 4).toNat) }

/-- The tail of hips_get_tile_ once bytes are available (src/hips.c lines
762-792): create the tile, add it to the cache, then either decode inline
(synchronous path, incrementing `nDecode`) or hand the bytes to a loader
and report "pending" (asynchronous path). -/
def tileFromBytes (_hips : Hips) (env : Env) (order pix : Int) (flags : Nat)
    (key : TileKey) (bytes : Nat) (size : Int) (fcode : Int) (s : HState) :
    Option Tile × Int × HState :=
  if flags &&& HIPS_LOAD_IN_THREAD = 0 then
    let r := env.createTile order pix (some bytes) size
    let tile : Tile :=
      ⟨order, pix,
       r.2.2 * TILE_NO_CHILD_0 ||| (if r.1.isNone then TILE_LOAD_ERROR else 0),
       r.1, none⟩
    (some tile, fcode,
      { s with cache := cacheSet s.cache key tile, nDecode := s.nDecode + 1 })
  else
    let tile : Tile := ⟨order, pix, 0, none, some ⟨bytes, size⟩⟩
    (none, 0, { s with cache := cacheSet s.cache key tile })

/-- Shallow embedding of hips_get_tile_ (src/hips.c lines 692-793).
`fuel` bounds the parent recursion (the wrapper `hipsGetTile_` supplies
enough for the order range).  Returns (tile, status code, new state).
Order of checks follows the C exactly: cache lookup (polling a pending
loader), HIPS_CACHED_ONLY, readiness, the order-range rejection, the
parent lookup with the memoized missing-child bit, then the byte fetch
with its pending / 4xx-memoization / error / success outcomes. -/
def hipsGetTileAux (hips : Hips) (env : Env) :
    Nat → Int → Int → Nat → HState → Option Tile × Int × HState
  | 0, _, _, _, s => (none, 0, s)
  | fuel+1, order, pix, flags, s =>
    let key := tileKey hips flags order pix
    match s.cache key with
    | some tile =>
      match tile.loader with
      | some loader =>
        if env.workerDone then
          let r := env.createTile tile.posOrder tile.posPix
                     (some loader.ldata) loader.lsize
          let tile2 : Tile :=
            { tile with
              data := r.1,
              flags := (if r.1.isNone then tile.flags ||| TILE_LOAD_ERROR
                        else tile.flags) ||| r.2.2 * TILE_NO_CHILD_0,
              loader := none }
          (some tile2, 200,
            { s with cache := cacheSet s.cache key tile2,
                     nDecode := s.nDecode + 1 })
        else (none, 0, s)
      | none => (some tile, 200, s)
    | none =>
      if flags &&& HIPS_CACHED_ONLY ≠ 0 then (none, 0, s)
      else if env.ready = false then (none, 0, s)
      else if (hips.order ≠ 0 ∧ hips.order < order) ∨ order < hips.orderMin then
        (none, 404, s)
      else if hips.orderMin < order then
        match hipsGetTileAux hips env fuel (order - 1) (Int.tdiv pix 4) 0 s with
        | (none, _, s1) => (none, 0, s1)
        | (some parent, _, s1) =>
          if parent.flags &&& (TILE_NO_CHILD_0 <<< (Int.tmod pix 4).toNat) ≠ 0
          then (none, 404, s1)
          else
            let f := env.fetch order pix
            let s2 : HState := { s1 with nFetch := s1.nFetch + 1 }
            if f.2.2 = 0 then (none, 0, s2)
            else if Int.tdiv f.2.2 100 = 4 then
              match hipsGetTileAux hips env fuel (order - 1) (Int.tdiv pix 4) 0 s2 with
              | (some _, _, s3) =>
                let c2 := cacheModify s3.cache ⟨hips.hash, order - 1, Int.tdiv pix 4⟩ (markChild pix)
                (none, f.2.2, { s3 with cache := c2 })
              | (none, _, s3) => (none, f.2.2, s3)
            else
              match f.1 with
              | none => (none, f.2.2, s2)
              | some bytes => tileFromBytes hips env order pix flags key bytes f.2.1 f.2.2 s2
      else
        let f := env.fetch order pix
        let s2 : HState := { s with nFetch := s.nFetch + 1 }
        if f.2.2 = 0 then (none, 0, s2)
        else if Int.tdiv f.2.2 100 = 4 then (none, f.2.2, s2)
        else
          match f.1 with
          | none => (none, f.2.2, s2)
          | some bytes => tileFromBytes hips env order pix flags key bytes f.2.1 f.2.2 s2

/-- hips_get_tile_ with the recursion fuel the order range needs. -/
def hipsGetTile_ (hips : Hips) (env : Env) (order pix : Int) (flags : Nat)
    (s : HState) : Option Tile × Int × HState :=
  hipsGetTileAux hips env ((order - hips.orderMin).toNat + 1) order pix flags s

/-- hips_get_tile (src/hips.c lines 795-802): returns the tile payload (or
NULL), passing the status code through.  The two asserts of the C function
are the proposition `hipsGetTileAssertOk` below. -/
def hipsGetTile (hips : Hips) (env : Env) (order pix : Int) (flags : Nat)
    (s : HState) : Option ImgTile × Int × HState :=
  let r := hipsGetTile_ hips env order pix flags s
  (r.1.bind Tile.data, r.2.1, r.2.2)

/-- The two assertions of hips_get_tile (src/hips.c lines 799-800):
`if (*code == 200) assert(tile && tile->data)` and
`if (*code == 0) assert(!tile)`, as a proposition about one call. -/
def hipsGetTileAssertOk (hips : Hips) (env : Env) (order pix : Int)
    (flags : Nat) (s : HState) : Prop :=
  let r := hipsGetTile_ hips env order pix flags s
  (r.2.1 = 200 → r.1 ≠ none ∧ r.1.bind Tile.data ≠ none) ∧
  (r.2.1 = 0 → r.1 = none)

instance (hips : Hips) (env : Env) (order pix : Int) (flags : Nat)
    (s : HState) : Decidable (hipsGetTileAssertOk hips env order pix flags s) := by
  unfold hipsGetTileAssertOk
  infer_instance

/-- hips_add_manual_tile (src/hips.c lines 804-831): decode the given
bytes through the codec and insert the resulting tile in the cache at
(order, pix), with the transparency mask as initial flags. -/
def hipsAddManualTile (hips : Hips) (env : Env) (order pix : Int)
    (bytes : Option Nat) (size : Int) (s : HState) : Option ImgTile × HState :=
  let key : TileKey := ⟨hips.hash, order, pix⟩
  let r := env.createTile order pix bytes size
  let tile : Tile := ⟨order, pix, r.2.2 * TILE_NO_CHILD_0, r.1, none⟩
  (r.1, { s with cache := cacheSet s.cache key tile,
                 nDecode := s.nDecode + 1 })

/-- The empty cache with zeroed fetch / decode counters. -/
def emptyState : HState := ⟨fun _ => none, 0, 0⟩

/- ----------------------------------------------------------------- -/
/- UV matrices and the texture-selection function.                    -/
/- ----------------------------------------------------------------- -/

/-- Modelled from the spec: the 3x3 matrix helpers (mat3_set_identity,
mat3_iscale, mat3_itranslate, mat3_mul, mat3_mul_vec2) live in the math
headers, which are not under src/.  Spec section 4.4 describes the child
UV remap they implement: scale the unit square by one half and translate
to quadrant (i / 2, i mod 2), composed so that several one-level steps
accumulate.  Matrices act on UV points affinely, `mat3Mul m n` is the map
"n first, then m", and entries are exact rationals. -/
structure Mat3 where
  a00 : ℚ
  a01 : ℚ
  a02 : ℚ
  a10 : ℚ
  a11 : ℚ
  a12 : ℚ
  a20 : ℚ
  a21 : ℚ
  a22 : ℚ
deriving DecidableEq

def mat3Identity : Mat3 := ⟨1, 0, 0, 0, 1, 0, 0, 0, 1⟩

def mat3Mul (m n : Mat3) : Mat3 :=
  ⟨m.a00*n.a00 + m.a01*n.a10 + m.a02*n.a20,
   m.a00*n.a01 + m.a01*n.a11 + m.a02*n.a21,
   m.a00*n.a02 + m.a01*n.a12 + m.a02*n.a22,
   m.a10*n.a00 + m.a11*n.a10 + m.a12*n.a20,
   m.a10*n.a01 + m.a11*n.a11 + m.a12*n.a21,
   m.a10*n.a02 + m.a11*n.a12 + m.a12*n.a22,
   m.a20*n.a00 + m.a21*n.a10 + m.a22*n.a20,
   m.a20*n.a01 + m.a21*n.a11 + m.a22*n.a21,
   m.a20*n.a02 + m.a21*n.a12 + m.a22*n.a22⟩

/-- m multiplied on the right by the scaling matrix diag(sx, sy, sz). -/
def mat3Iscale (m : Mat3) (sx sy sz : ℚ) : Mat3 :=
  ⟨m.a00*sx, m.a01*sy, m.a02*sz,
   m.a10*sx, m.a11*sy, m.a12*sz,
   m.a20*sx, m.a21*sy, m.a22*sz⟩

/-- m multiplied on the right by the affine translation by (x, y). -/
def mat3Itranslate (m : Mat3) (x y : ℚ) : Mat3 :=
  { m with
    a02 := m.a00*x + m.a01*y + m.a02,
    a12 := m.a10*x + m.a11*y + m.a12,
    a22 := m.a20*x + m.a21*y + m.a22 }

/-- Affine action of a matrix on a 2D UV point (mat3_mul_vec2). -/
def mat3MulVec2 (m : Mat3) (v : ℚ × ℚ) : ℚ × ℚ :=
  (m.a00*v.1 + m.a01*v.2 + m.a02, m.a10*v.1 + m.a11*v.2 + m.a12)

/-- get_child_uv_mat (src/hips.c lines 243-250): build the quadrant map
for child i (identity, scaled by one half, translated to quadrant
(i / 2, i mod 2), integer arithmetic as in C) and left-multiply it onto
the accumulated matrix m. -/
def getChildUvMat (i : Int) (m : Mat3) : Mat3 :=
  let tmp := mat3Identity
  let tmp := mat3Iscale tmp (1/2) (1/2) 1
  let tmp := mat3Itranslate tmp ((Int.tdiv i 2 : Int) : ℚ) ((Int.tmod i 2 : Int) : ℚ)
  mat3Mul tmp m

/-- The quadrant affine map of child i alone (get_child_uv_mat applied to
the identity): scale the unit square by one half, translate to quadrant
(i / 2, i mod 2). -/
def childUvMat (i : Int) : Mat3 := getChildUvMat i mat3Identity

/-- projection_init_healpix is external projection code (not under src/);
its call at src/hips.c line 423 is modelled as the record of the arguments
hips.c passes: nside = 2^order, the pixel index, swapped = true, and the
outside flag. -/
structure Projection where
  nside : Int
  ppix : Int
  swapped : Bool
  outside : Bool
deriving DecidableEq

def mkProj (order pix : Int) (outside : Bool) : Projection :=
  ⟨(2 : Int) ^ order.toNat, pix, true, outside⟩

/-- UV_OUT (src/hips.c line 343). -/
def UV_OUT : List (ℚ × ℚ) := [(0, 0), (0, 1), (1, 0), (1, 1)]

/-- UV_IN (src/hips.c line 344). -/
def UV_IN : List (ℚ × ℚ) := [(0, 0), (1, 0), (0, 1), (1, 1)]

def optOr (a b : Option Nat) : Option Nat :=
  match a with
  | some x => some x
  | none => b

/-- Everything hips_get_tile_texture communicates to its caller: the
texture (or none), the UV quad, the healpix projection, the fade value,
the loading_complete flag, plus the node actually used (rend_order,
rend_pix) and its payload, which the texture is read from. -/
structure TexResult where
  tex : Option Nat
  uv : List (ℚ × ℚ)
  proj : Projection
  fade : ℚ
  loadingComplete : Bool
  usedOrder : Int
  usedPix : Int
  usedTile : Option ImgTile
deriving DecidableEq

/-- Result of the ancestor walk: the payload found (or none), the node
reached, the accumulated UV matrix and the state after the lookups. -/
structure WalkRes where
  rt : Option ImgTile
  ro : Int
  rp : Int
  mat : Mat3
  st : HState

/-- The parent-fallback loop of hips_get_tile_texture (src/hips.c lines
374-382): while no tile is found and the order is above the survey's min
order, accumulate the quadrant UV map, step to the parent, and look it up
once the order is within the survey's max order.  `fuel` bounds the loop
(the caller supplies enough for the order range). -/
def texWalk (hips : Hips) (env : Env) (flags : Nat) :
    Nat → Option ImgTile → Int → Int → Mat3 → HState → WalkRes
  | 0, rt, ro, rp, mat, s => ⟨rt, ro, rp, mat, s⟩
  | fuel+1, rt, ro, rp, mat, s =>
    match rt with
    | some t => ⟨some t, ro, rp, mat, s⟩
    | none =>
      if ro ≤ hips.orderMin then ⟨none, ro, rp, mat, s⟩
      else
        let mat2 := getChildUvMat (Int.tmod rp 4) mat
        let ro2 := ro - 1
        let rp2 := Int.tdiv rp 4
        if hips.order < ro2 then texWalk hips env flags fuel none ro2 rp2 mat2 s
        else
          let g := hipsGetTile hips env ro2 rp2 flags s
          texWalk hips env flags fuel g.1 ro2 rp2 mat2 g.2.2

/-- The result hips_get_tile_texture hands back on its default paths
(survey not ready, tile permanently absent, or no ancestor found): no
texture, the full-frame UV quad, fade 1, a projection for the requested
node, and the given loading_complete value. -/
def defaultTexRes (order pix : Int) (flags : Nat) (lc : Bool) : TexResult :=
  ⟨none, if (flags &&& HIPS_PLANET == 0 : Bool) then UV_OUT else UV_IN,
   mkProj order pix (flags &&& HIPS_PLANET == 0), 1, lc, order, pix, none⟩

/-- The direct resolution attempt of hips_get_tile_texture (src/hips.c
lines 364-365): the tile is resolved only when the requested order does
not exceed the survey's max order (the status variable stays 0
otherwise, matching the C code where the 404-check is only reached
inside that branch). -/
def texDirect (hips : Hips) (env : Env) (order pix : Int) (flags : Nat)
    (s : HState) : Option ImgTile × Int × HState :=
  if order ≤ hips.order then hipsGetTile hips env order pix flags s
  else (none, 0, s)

/-- The ancestor walk of hips_get_tile_texture, started from the direct
resolution attempt. -/
def texWalked (hips : Hips) (env : Env) (order pix : Int) (flags : Nat)
    (s : HState) : WalkRes :=
  texWalk hips env flags ((order - hips.orderMin).toNat + 1)
    (texDirect hips env order pix flags s).1 order pix mat3Identity
    (texDirect hips env order pix flags s).2.2

/-- The tail of hips_get_tile_texture once a payload rt was found at
node (w.ro, w.rp) (src/hips.c lines 389-425): loading_complete iff the
node used is at min(requested order, survey max order); UV corners
remapped through the accumulated matrix; a texture created from the
decoded pixels if needed (freeing them); the bootstrap-mosaic texture
created when forced at min order and nothing else is available; the
mutated payload written back through the cache entry it aliases; and the
texture (preferring the tile's own over the mosaic crop) returned with a
projection for the node used. -/
def texFound (hips : Hips) (env : Env) (order _pix : Int) (flags : Nat)
    (w : WalkRes) (rt : ImgTile) : TexResult × HState :=
  let outside := flags &&& HIPS_PLANET == 0
  let uv0 := if outside then UV_OUT else UV_IN
  let lc := decide (w.ro = min order hips.order)
  let uv2 := uv0.map (mat3MulVec2 w.mat)
  let rt1 := if rt.img ≠ none ∧ rt.tex = none
             then { rt with tex := some env.newTex, img := none } else rt
  let rt2 := if flags &&& HIPS_FORCE_USE_ALLSKY ≠ 0 ∧ w.ro = hips.orderMin ∧
                rt1.tex = none ∧ rt1.allskyTex = none
             then { rt1 with allskyTex := some env.newTex } else rt1
  let wbKey := tileKey hips flags w.ro w.rp
  let c2 := cacheModify w.st.cache wbKey (fun t => { t with data := t.data.map (fun _ => rt2) })
  let st2 := { w.st with cache := c2 }
  (⟨optOr rt2.tex rt2.allskyTex, uv2, mkProj w.ro w.rp outside, 1, lc,
    w.ro, w.rp, some rt2⟩, st2)

/-- hips_get_tile_texture (src/hips.c lines 336-426).  Defaults are set
first (loading_complete false, fade 1, the full-frame UV quad).  If the
survey is not ready the defaults are returned with a projection for the
requested node.  Otherwise the exact tile is resolved when the requested
order does not exceed the survey's max order; a permanent failure there
(no payload, status neither 0 nor 598) reports loading_complete true
with no texture.  Otherwise ancestors are walked; with no ancestor the
node is reset to the requested one and the defaults returned; with a
payload found, `texFound` finishes the job. -/
def hipsGetTileTexture (hips : Hips) (env : Env) (order pix : Int)
    (flags : Nat) (s : HState) : TexResult × HState :=
  if env.ready = false then (defaultTexRes order pix flags false, s)
  else
    let d := texDirect hips env order pix flags s
    if d.1 = none ∧ d.2.1 ≠ 0 ∧ d.2.1 ≠ 598 then
      (defaultTexRes order pix flags true, d.2.2)
    else
      let w := texWalked hips env order pix flags s
      match w.rt with
      | none => (defaultTexRes order pix flags false, w.st)
      | some rt => texFound hips env order pix flags w rt

/- ----------------------------------------------------------------- -/
/- Breadth-first traversal.                                           -/
/- ----------------------------------------------------------------- -/

/-- The queue capacity of hips_traverse, ARRAY_SIZE of the queue
(src/hips.c line 287). -/
def TRAVERSE_QUEUE_CAP : Nat := 1024

/-- hips_traverse's loop (src/hips.c lines 293-309), with the ring buffer
represented as a FIFO list (the C buffer keeps size < 1024, so positions
never collide and the two are in bijection).  Pops the front node, calls
the callback; a negative result is returned as is; result 1 appends the
four children (order+1, pix*4+i) provided the post-pop size plus 4 does
not reach the capacity, else returns -1; any other result just drops the
node.  An empty queue returns 0.  `fuel` bounds the number of iterations
(the C loop does not terminate for every callback; every claim below
holds for every fuel). -/
def hipsTraverseAux (c : Nat → Nat → Int) :
    Nat → List (Nat × Nat) → Option Int
  | _, [] => some 0
  | 0, _ :: _ => none
  | fuel+1, (order, pix) :: rest =>
    let r := c order pix
    if r < 0 then some r
    else if r = 1 then
      if TRAVERSE_QUEUE_CAP ≤ rest.length + 4 then some (-1)
      else hipsTraverseAux c fuel
        (rest ++ [(order+1, pix*4), (order+1, pix*4+1),
                  (order+1, pix*4+2), (order+1, pix*4+3)])
    else hipsTraverseAux c fuel rest

/-- hips_traverse (src/hips.c lines 281-310): run the loop on the queue
seeded with the 12 order-0 root pixels. -/
def hipsTraverse (c : Nat → Nat → Int) (fuel : Nat) : Option Int :=
  hipsTraverseAux c fuel ((List.range 12).map (fun i => (0, i)))

/- ----------------------------------------------------------------- -/
/- Manifest parsing.                                                  -/
/- ----------------------------------------------------------------- -/

/-- Numeric value of a digit run. -/
def digitsToInt (l : List Char) : Int :=
  l.foldl (fun acc c => acc * 10 + (Int.ofNat (c.toNat - 48))) 0

/-- C atoi: skip whitespace, optional sign, value of the leading digit
run (0 when there is none). -/
def atoiChars (l : List Char) : Int :=
  let l1 := l.dropWhile Char.isWhitespace
  match l1 with
  | '-' :: r => - digitsToInt (r.takeWhile Char.isDigit)
  | '+' :: r => digitsToInt (r.takeWhile Char.isDigit)
  | _ => digitsToInt (l1.takeWhile Char.isDigit)

def atoi (str : String) : Int := atoiChars str.toList

/-- sscanf %d: skip whitespace, optional sign, then at least one digit,
returning the value and the rest of the input (none on matching
failure). -/
def scanInt (l : List Char) : Option (Int × List Char) :=
  let l1 := l.dropWhile Char.isWhitespace
  match l1 with
  | '-' :: r =>
    let ds := r.takeWhile Char.isDigit
    if ds.isEmpty then none else some (- digitsToInt ds, r.drop ds.length)
  | '+' :: r =>
    let ds := r.takeWhile Char.isDigit
    if ds.isEmpty then none else some (digitsToInt ds, r.drop ds.length)
  | _ =>
    let ds := l1.takeWhile Char.isDigit
    if ds.isEmpty then none else some (digitsToInt ds, l1.drop ds.length)

/-- A literal character of an sscanf format. -/
def expectChar (c : Char) : List Char → Option (List Char)
  | x :: r => if x = c then some r else none
  | [] => none

/-- The sscanf format of hips_parse_date, `%d-%d-%dT%d:%dZ`
(src/hips.c line 894): the five integers, or none when fewer than five
items match.  As in C, a missing trailing Z does not invalidate the five
already-assigned items. -/
def parseDateFields (l : List Char) : Option (Int × Int × Int × Int × Int) :=
  (scanInt l).bind (fun p1 =>
  (expectChar '-' p1.2).bind (fun r2 =>
  (scanInt r2).bind (fun p2 =>
  (expectChar '-' p2.2).bind (fun r3 =>
  (scanInt r3).bind (fun p3 =>
  (expectChar 'T' p3.2).bind (fun r4 =>
  (scanInt r4).bind (fun p4 =>
  (expectChar ':' p4.2).bind (fun r5 =>
  (scanInt r5).map (fun p5 => (p1.1, p2.1, p3.1, p4.1, p5.1))))))))))

/-- The Gregorian calendar to Modified Julian Day number conversion of
ERFA's eraCal2jd (the ERFA library is an external collaborator), with C
truncating division. -/
def cal2mjd (iy im idd : Int) : Int :=
  let my := Int.tdiv (im - 14) 12
  Int.tdiv (1461 * (iy + my + 4800)) 4
    + Int.tdiv (367 * (im - 2 - 12 * my)) 12
    - Int.tdiv (3 * (Int.tdiv (iy + my + 4900) 100)) 4
    + idd - 2432076

/-- hips_parse_date (src/hips.c lines 890-898): parse the
`YYYY-MM-DDThh:mmZ` fields, then return the day number of that UTC
instant (eraDtf2d's d1 + d2 minus DJM0, i.e. the MJD plus the fraction of
the day; eraDtf2d is external, modelled from the spec's "day-number
timestamp" with the ERFA calendar formula above).  0 on parse failure. -/
def hipsParseDate (str : String) : ℚ :=
  match parseDateFields str.toList with
  | none => 0
  | some (iy, im, idd, ihr, imn) =>
    mkRat (cal2mjd iy im idd * 1440 + (ihr * 60 + imn)) 1440

/-- C strstr as a Bool: does the needle occur as a substring? -/
def hasInfix (needle : List Char) : List Char → Bool
  | [] => needle.isEmpty
  | c :: r => needle.isPrefixOf (c :: r) || hasInfix needle r

def strstrB (hay needle : String) : Bool := hasInfix needle.toList hay.toList

/-- property_handler (src/hips.c lines 171-205): record the property,
then update the survey fields for the recognized keys.  For
hips_tile_format the value is searched (strstr) for the tokens webp,
jpeg, png, eph in that order; the first found sets the extension (jpeg
sets "jpg"; eph also marks the bootstrap mosaic unavailable); any other
value is logged and ignored, leaving the extension unchanged. -/
def propertyHandler (hips : Hips) (name value : String) : Hips :=
  let hips := { hips with properties := hips.properties ++ [(name, value)] }
  let hips := if name = "hips_order" then { hips with order := atoi value } else hips
  let hips := if name = "hips_order_min" then { hips with orderMin := atoi value } else hips
  let hips := if name = "hips_tile_width" then { hips with tileWidth := atoi value } else hips
  let hips := if name = "hips_release_date" then { hips with releaseDate := hipsParseDate value } else hips
  if name = "hips_tile_format" then
    if strstrB value ("webp") then { hips with ext := "webp" }
    else if strstrB value ("jpeg") then { hips with ext := "jpg" }
    else if strstrB value ("png") then { hips with ext := "png" }
    else if strstrB value ("eph") then { hips with ext := "eph", allskyNotAvailable := true }
    else hips
  else hips

/-- Split a character list at every occurrence of c. -/
def splitOnChar (c : Char) : List Char → List (List Char)
  | [] => [[]]
  | x :: r =>
    if x = c then [] :: splitOnChar c r
    else
      match splitOnChar c r with
      | [] => [[x]]
      | h :: t => (x :: h) :: t

/-- Split a character list at the first occurrence of c, or none. -/
def splitFirst (c : Char) : List Char → Option (List Char × List Char)
  | [] => none
  | x :: r =>
    if x = c then some ([], r)
    else (splitFirst c r).map (fun p => (x :: p.1, p.2))

def trimChars (l : List Char) : List Char :=
  ((l.dropWhile Char.isWhitespace).reverse.dropWhile Char.isWhitespace).reverse

/-- Modelled from the spec: ini_parse_string comes from the third-party
ini library (ini.h, not under src/); per spec section 6 the manifest
parser is line-oriented `key = value` — each line is split at the first
equals sign, key and value are trimmed, and the handler is called; lines
without an equals sign are skipped. -/
def iniLine (hips : Hips) (line : List Char) : Hips :=
  match splitFirst '=' line with
  | some (k, v) => propertyHandler hips ⟨trimChars k⟩ ⟨trimChars v⟩
  | none => hips

def iniParseString (data : String) (hips : Hips) : Hips :=
  (splitOnChar '\n' data.toList).foldl iniLine hips

/-- hips_create's field initialization (src/hips.c lines 118-137): order
0 from calloc, order_min 3, extension "jpg", the given release date.
The url hash (crc64, external) is an arbitrary identity. -/
def hipsCreateModel (hash : Nat) (releaseDate : ℚ) : Hips :=
  ⟨hash, 0, 3, 0, "jpg", releaseDate, false, []⟩

/-- The example manifest of spec section 8. -/
def manifestExample : String :=
  "hips_order = 5\nhips_order_min = 2\nhips_tile_format = png\nhips_release_date = 2019-01-02T15:27Z"

/- ----------------------------------------------------------------- -/
/- Theorems.                                                          -/
/- ----------------------------------------------------------------- -/

theorem mat3Mul_one (m : Mat3) : mat3Mul m mat3Identity = m := by
  cases m
  simp only [mat3Mul, mat3Identity, Mat3.mk.injEq]
  and_intros <;> ring

theorem mat3Mul_assoc (a b c : Mat3) :
    mat3Mul (mat3Mul a b) c = mat3Mul a (mat3Mul b c) := by
  cases a; cases b; cases c
  simp only [mat3Mul, Mat3.mk.injEq]
  and_intros <;> ring

/-- Claim C9: the per-quadrant UV remap composes associatively — for
every starting matrix m and every pair of quadrant indices, two
successive one-level ancestor steps through get_child_uv_mat equal the
single direct two-level transform, the composed product of the two
quadrant affine maps; and each quadrant map is exactly the affine map
scaling the unit square by one half and translating it to quadrant
(i / 2, i mod 2). -/
theorem claim9_theorem (m : Mat3) (i j : Int) :
    getChildUvMat j (getChildUvMat i m) =
      mat3Mul (mat3Mul (childUvMat j) (childUvMat i)) m ∧
    childUvMat i =
      ⟨1/2, 0, ((Int.tdiv i 2 : Int) : ℚ)/2,
       0, 1/2, ((Int.tmod i 2 : Int) : ℚ)/2,
       0, 0, 1⟩ := by
  constructor
  · simp only [getChildUvMat, childUvMat, mat3Mul_one]
    rw [mat3Mul_assoc]
  · simp only [childUvMat, getChildUvMat]
    rw [mat3Mul_one]
    simp only [mat3Iscale, mat3Itranslate, mat3Identity, Mat3.mk.injEq]
    and_intros <;> ring

/-- Claim C5: hips_traverse is a breadth-first expansion seeded with the
12 order-0 roots; a callback result 1 appends exactly the four children
pix*4+i at order+1 to the back of the queue; a negative callback result
is returned immediately; and an expansion that would reach the fixed
queue capacity returns -1 instead of dropping nodes. -/
theorem claim5_theorem :
    (∀ (c : Nat → Nat → Int) (fuel : Nat),
      hipsTraverse c fuel =
        hipsTraverseAux c fuel
          [(0,0),(0,1),(0,2),(0,3),(0,4),(0,5),(0,6),(0,7),(0,8),(0,9),(0,10),(0,11)]) ∧
    (∀ (c : Nat → Nat → Int) (fuel order pix : Nat) (rest : List (Nat × Nat)),
      c order pix < 0 →
      hipsTraverseAux c (fuel+1) ((order, pix) :: rest) = some (c order pix)) ∧
    (∀ (c : Nat → Nat → Int) (fuel order pix : Nat) (rest : List (Nat × Nat)),
      c order pix = 1 → rest.length + 4 < TRAVERSE_QUEUE_CAP →
      hipsTraverseAux c (fuel+1) ((order, pix) :: rest) =
        hipsTraverseAux c fuel
          (rest ++ [(order+1, pix*4), (order+1, pix*4+1),
                    (order+1, pix*4+2), (order+1, pix*4+3)])) ∧
    (∀ (c : Nat → Nat → Int) (fuel order pix : Nat) (rest : List (Nat × Nat)),
      c order pix = 1 → TRAVERSE_QUEUE_CAP ≤ rest.length + 4 →
      hipsTraverseAux c (fuel+1) ((order, pix) :: rest) = some (-1)) := by
  refine ⟨fun c fuel => rfl, ?_, ?_, ?_⟩
  · intro c fuel order pix rest h
    simp only [hipsTraverseAux]
    rw [if_pos h]
  · intro c fuel order pix rest h1 h2
    simp only [hipsTraverseAux, h1]
    norm_num
    intro h
    exact absurd h (by omega)
  · intro c fuel order pix rest h1 h2
    simp only [hipsTraverseAux, h1]
    norm_num
    intro h
    exact absurd h (by omega)

/-- Witness for claim C5: the four parts at concrete inputs — the root
seeding, an aborting callback, one expansion step, and the overflow
abort with 1020 queued nodes. -/
theorem claim5_witness :
    hipsTraverse (fun _ _ => 0) 12 =
      hipsTraverseAux (fun _ _ => 0) 12
        [(0,0),(0,1),(0,2),(0,3),(0,4),(0,5),(0,6),(0,7),(0,8),(0,9),(0,10),(0,11)] ∧
    hipsTraverseAux (fun _ _ => -3) 1 [(2, 5)] = some (-3) ∧
    hipsTraverseAux (fun _ _ => 1) 3 [(0, 7)] =
      hipsTraverseAux (fun _ _ => 1) 2 [(1, 28), (1, 29), (1, 30), (1, 31)] ∧
    hipsTraverseAux (fun _ _ => 1) 1 ((0, 0) :: List.replicate 1020 (0, 0)) = some (-1) := by
  refine ⟨claim5_theorem.1 _ 12, claim5_theorem.2.1 _ 0 2 5 [] (by norm_num), ?_, ?_⟩
  · have h := claim5_theorem.2.2.1 (fun _ _ => 1) 2 0 7 [] rfl
      (by simp [TRAVERSE_QUEUE_CAP])
    simpa using h
  · exact claim5_theorem.2.2.2 (fun _ _ => 1) 0 0 0 (List.replicate 1020 (0, 0)) rfl
      (by simp [TRAVERSE_QUEUE_CAP])

/- Claim C4 fixtures: a survey with min order 3 and max order 3, whose
tile (3,5) URL returns 404 and everything else is still pending. -/

def c4hips : Hips := ⟨7, 3, 3, 0, "jpg", 0, false, []⟩

def c4env : Env :=
  ⟨true,
   fun o p => if o = 3 ∧ p = 5 then (none, 0, 404) else (none, 0, 0),
   fun _ _ _ _ => (some ⟨some 1, 4, 4, 3, none, none⟩, 48, 0),
   false, 9⟩

/-- Claim C4 counterexample: on a survey with min depth 3 and max depth
3, resolving (depth 3, index 5) whose URL yields 404 does return status
404, but the depth-2 parent entry stays absent, so no missing-child bit
is recorded anywhere: the 4xx memoization (src/hips.c lines 748-752) is
guarded by order > order_min, and depth 2 is below the min depth. -/
theorem claim4_counterexample :
    (hipsGetTile_ c4hips c4env 3 5 0 emptyState).1 = none ∧
    (hipsGetTile_ c4hips c4env 3 5 0 emptyState).2.1 = 404 ∧
    (hipsGetTile_ c4hips c4env 3 5 0 emptyState).2.2.cache ⟨7, 2, 1⟩ = none := by
  decide

/- Amended claim C4 fixtures: the same survey but with min order 2, so
that the parent (2,1) is itself resolvable (its fetch succeeds and
decodes synchronously) and the missing-child memoization applies. -/

def c4hipsAmended : Hips := ⟨7, 3, 2, 0, "jpg", 0, false, []⟩

def c4envAmended : Env :=
  ⟨true,
   fun o p => if o = 2 ∧ p = 1 then (some 21, 100, 200)
              else if o = 3 ∧ p = 5 then (none, 0, 404) else (none, 0, 0),
   fun _ _ _ _ => (some ⟨some 1, 4, 4, 3, none, none⟩, 48, 0),
   false, 9⟩

/-- Claim C4 (amended): for a survey with min depth 2 and max depth 3,
resolving (depth 3, index 5) when that URL yields 404 produces status
404 with no tile, and the depth-2 parent tile (index 1) then has its
missing-child bit set for quadrant 1 (5 mod 4). -/
theorem claim4_amended_theorem :
    (hipsGetTile_ c4hipsAmended c4envAmended 3 5 0 emptyState).1 = none ∧
    (hipsGetTile_ c4hipsAmended c4envAmended 3 5 0 emptyState).2.1 = 404 ∧
    ((hipsGetTile_ c4hipsAmended c4envAmended 3 5 0 emptyState).2.2.cache
        ⟨7, 2, 1⟩).map (fun t => t.flags &&& (TILE_NO_CHILD_0 <<< 1)) =
      some (TILE_NO_CHILD_0 <<< 1) := by
  decide

/- Claim C10 fixtures: a survey whose tile (0,0) bytes fetch succeeds but
whose codec rejects the bytes (create_tile returns NULL).  The first call
uses the asynchronous path and leaves a pending loader; the second call
polls the completed (failed) decode. -/

def c10hips : Hips := ⟨1, 0, 0, 0, "jpg", 0, false, []⟩

def c10env : Env :=
  ⟨true,
   fun o p => if o = 0 ∧ p = 0 then (some 5, 10, 200) else (none, 0, 0),
   fun _ _ _ _ => (none, 0, 0),
   true, 9⟩

def c10state : HState :=
  (hipsGetTile_ c10hips c10env 0 0 HIPS_LOAD_IN_THREAD emptyState).2.2

/-- Claim C10: the assertion of hips_get_tile fails on a reachable state.
After a tile's asynchronous decode completes with failure (payload NULL,
TILE_LOAD_ERROR set), the next resolve of that key returns the tile with
status 200 and a NULL payload, so `if (*code == 200) assert(tile &&
tile->data)` (src/hips.c line 799) is violated. -/
theorem claim10_theorem :
    ¬ hipsGetTileAssertOk c10hips c10env 0 0 0 c10state ∧
    (hipsGetTile_ c10hips c10env 0 0 0 c10state).2.1 = 200 ∧
    (hipsGetTile_ c10hips c10env 0 0 0 c10state).1 ≠ none ∧
    ((hipsGetTile_ c10hips c10env 0 0 0 c10state).1.bind Tile.data) = none ∧
    ((hipsGetTile_ c10hips c10env 0 0 0 c10state).1.map Tile.flags) =
      some TILE_LOAD_ERROR := by
  decide

/- Claim C2 fixtures: a survey at min order 0 whose byte fetch is still
pending (the fetch layer reports status 0 forever). -/

def c2hips : Hips := ⟨0, 0, 0, 0, "jpg", 0, false, []⟩

def c2env : Env :=
  ⟨true, fun _ _ => (none, 0, 0), fun _ _ _ _ => (none, 0, 0), false, 0⟩

/-- Claim C2 counterexample: while the byte fetch for a key is still
pending (no tile exists yet), resolving the same key twice with the
external state unchanged issues a second byte-fetch call: the fetch
counter goes from 1 to 2.  Nothing was memoized by the first call, so
each resolve re-polls the fetch layer (asset_get_data2 at src/hips.c
line 743). -/
theorem claim2_counterexample :
    (hipsGetTile_ c2hips c2env 0 0 0 emptyState).2.2.nFetch = 1 ∧
    (hipsGetTile_ c2hips c2env 0 0 0
        (hipsGetTile_ c2hips c2env 0 0 0 emptyState).2.2).2.2.nFetch = 2 := by
  decide

/-- Claim C2 (amended): once a tile exists in the cache for the key, a
resolve is pure: with no pending loader it returns that very tile with
status 200 and the state untouched; with a pending loader and no decode
completion it returns absent/pending and the state untouched.  Hence a
second resolve under unchanged external state repeats no fetch and no
decode and observes the same payload identity. -/
theorem claim2_amended_theorem (hips : Hips) (env : Env) (order pix : Int)
    (flags : Nat) (s : HState) (tile : Tile)
    (hc : s.cache (tileKey hips flags order pix) = some tile) :
    (tile.loader = none →
      hipsGetTile_ hips env order pix flags s = (some tile, 200, s)) ∧
    (∀ l, tile.loader = some l → env.workerDone = false →
      hipsGetTile_ hips env order pix flags s = (none, 0, s)) ∧
    (tile.loader = none ∨ env.workerDone = false →
      hipsGetTile_ hips env order pix flags
          (hipsGetTile_ hips env order pix flags s).2.2 =
        hipsGetTile_ hips env order pix flags s ∧
      (hipsGetTile_ hips env order pix flags s).2.2.nFetch = s.nFetch ∧
      (hipsGetTile_ hips env order pix flags s).2.2.nDecode = s.nDecode) := by
  have h1 : tile.loader = none →
      hipsGetTile_ hips env order pix flags s = (some tile, 200, s) := by
    intro hl
    simp only [hipsGetTile_, hipsGetTileAux, hc, hl]
  have h2 : ∀ l, tile.loader = some l → env.workerDone = false →
      hipsGetTile_ hips env order pix flags s = (none, 0, s) := by
    intro l hl hw
    simp only [hipsGetTile_, hipsGetTileAux, hc, hl, hw]
    simp
  refine ⟨h1, h2, ?_⟩
  intro h
  cases htl : tile.loader with
  | none =>
    rw [h1 htl]
    exact ⟨h1 htl, rfl, rfl⟩
  | some l =>
    have hw : env.workerDone = false := by
      rcases h with hl | hw
      · rw [htl] at hl; cases hl
      · exact hw
    rw [h2 l htl hw]
    exact ⟨h2 l htl hw, rfl, rfl⟩

/- Claim C2 witness fixtures: a ready tile cached at key (hash 0, order
3, pix 9). -/

def c2wtile : Tile := ⟨3, 9, 0, some ⟨none, 1, 1, 1, some 4, none⟩, none⟩

def c2wstate : HState :=
  ⟨fun k => if k = ⟨0, 3, 9⟩ then some c2wtile else none, 0, 0⟩

/-- Witness for claim C2 (amended): resolving the cached tile (3,9)
twice returns the identical payload and leaves fetch and decode
counters untouched. -/
theorem claim2_witness :
    hipsGetTile_ (hipsCreateModel 0 0) c2env 3 9 0 c2wstate =
      (some c2wtile, 200, c2wstate) ∧
    hipsGetTile_ (hipsCreateModel 0 0) c2env 3 9 0
        (hipsGetTile_ (hipsCreateModel 0 0) c2env 3 9 0 c2wstate).2.2 =
      hipsGetTile_ (hipsCreateModel 0 0) c2env 3 9 0 c2wstate ∧
    (hipsGetTile_ (hipsCreateModel 0 0) c2env 3 9 0 c2wstate).2.2.nFetch =
      c2wstate.nFetch ∧
    (hipsGetTile_ (hipsCreateModel 0 0) c2env 3 9 0 c2wstate).2.2.nDecode =
      c2wstate.nDecode := by
  refine ⟨?_, ?_⟩
  · exact (claim2_amended_theorem (hipsCreateModel 0 0) c2env 3 9 0 c2wstate
      c2wtile (by decide)).1 rfl
  · exact (claim2_amended_theorem (hipsCreateModel 0 0) c2env 3 9 0 c2wstate
      c2wtile (by decide)).2.2 (Or.inl rfl)

/-- Claim C1 (amended): for every ready survey and every tile at order
strictly above the survey's min order whose parent tile sits in the
cache (decode settled) with the missing-child bit set for quadrant
pix mod 4, and such that no tile is already cached at the key itself,
resolving that tile with plain flags returns absent with status 404 and
leaves the state — in particular the fetch counter — completely
untouched: the resolver short-circuits on the parent's memoized bit
(src/hips.c lines 730-737) without any byte fetch. -/
theorem claim1_theorem (hips : Hips) (env : Env) (order pix : Int)
    (flags : Nat) (s : HState) (pt : Tile)
    (hready : env.ready = true)
    (ho : hips.orderMin < order)
    (hfa : flags &&& HIPS_FORCE_USE_ALLSKY = 0)
    (hco : flags &&& HIPS_CACHED_ONLY = 0)
    (hchild : s.cache ⟨hips.hash, order, pix⟩ = none)
    (hpar : s.cache ⟨hips.hash, order - 1, Int.tdiv pix 4⟩ = some pt)
    (hpl : pt.loader = none)
    (hbit : pt.flags &&& (TILE_NO_CHILD_0 <<< (Int.tmod pix 4).toNat) ≠ 0) :
    hipsGetTile_ hips env order pix flags s = (none, 404, s) := by
  have hkey : tileKey hips flags order pix = ⟨hips.hash, order, pix⟩ := by
    simp [tileKey, hfa]
  have hkey0 : tileKey hips 0 (order - 1) (Int.tdiv pix 4) =
      ⟨hips.hash, order - 1, Int.tdiv pix 4⟩ := by
    simp [tileKey, HIPS_FORCE_USE_ALLSKY]
  have hfuel : (order - hips.orderMin).toNat =
      (order - 1 - hips.orderMin).toNat + 1 := by omega
  unfold hipsGetTile_
  rw [hfuel]
  by_cases hrange : (hips.order ≠ 0 ∧ hips.order < order) ∨ order < hips.orderMin
  · simp only [hipsGetTileAux, hkey, hchild, hco, hready]
    simp [hrange]
  · simp only [hipsGetTileAux, hkey, hkey0, hchild, hpar, hpl, hco, hready]
    simp [hrange, ho, hbit]

/- Claim C1 witness fixtures: survey with orders [3,5], hash 3; the
parent tile (3,1) is cached with quadrant-1 marked missing. -/

def c1hips : Hips := ⟨3, 5, 3, 0, "jpg", 0, false, []⟩

def c1tile : Tile := ⟨3, 1, 2, some ⟨none, 0, 0, 0, none, none⟩, none⟩

def c1state : HState :=
  ⟨fun k => if k = ⟨3, 3, 1⟩ then some c1tile else none, 0, 0⟩

def c1env : Env :=
  ⟨true, fun _ _ => (none, 0, 0), fun _ _ _ _ => (none, 0, 0), false, 0⟩

/-- Witness for claim C1: resolving (4,5) with parent (3,1) marked
missing for quadrant 1 gives 404 with the state untouched. -/
theorem claim1_witness :
    hipsGetTile_ c1hips c1env 4 5 0 c1state = (none, 404, c1state) :=
  claim1_theorem c1hips c1env 4 5 0 c1state c1tile rfl (by decide) (by decide)
    (by decide) (by decide) (by decide) rfl (by decide)

/- Claim C1 counterexample fixtures: the same survey and parent state,
but with a tile manually inserted (hips_add_manual_tile) at the very key
(4,5) whose parent quadrant is marked missing. -/

def c1xenv : Env :=
  ⟨true, fun _ _ => (none, 0, 0),
   fun _ _ _ _ => (some ⟨some 2, 2, 2, 3, none, none⟩, 12, 0), false, 9⟩

def c1xstate : HState := (hipsAddManualTile c1hips c1xenv 4 5 (some 8) 4 c1state).2

/-- Claim C1 counterexample: with the parent (3,1) cached and its
quadrant-1 missing-child bit set, but a tile nevertheless present in the
cache at (4,5) (inserted through hips_add_manual_tile), resolving (4,5)
returns status 200 — not the claimed absent/404 — because the cache
lookup (src/hips.c line 708) precedes the parent missing-child check.
No byte fetch is issued either way. -/
theorem claim1_counterexample :
    (c1state.cache ⟨3, 3, 1⟩).map
        (fun t => t.flags &&& (TILE_NO_CHILD_0 <<< 1)) =
      some (TILE_NO_CHILD_0 <<< 1) ∧
    (hipsGetTile_ c1hips c1xenv 4 5 0 c1xstate).2.1 = 200 ∧
    ¬ (hipsGetTile_ c1hips c1xenv 4 5 0 c1xstate).2.1 = 404 ∧
    (hipsGetTile_ c1hips c1xenv 4 5 0 c1xstate).2.2.nFetch = c1xstate.nFetch := by
  decide

/- Claim C7 fixtures: survey with orders [3,5]; a manual tile is added at
order 9 (outside the range), as hips_add_manual_tile permits. -/

def c7hips : Hips := ⟨2, 5, 3, 0, "jpg", 0, false, []⟩

def c7env : Env :=
  ⟨true, fun _ _ => (none, 0, 0),
   fun _ _ _ _ => (some ⟨some 1, 2, 2, 3, none, none⟩, 12, 0), false, 9⟩

def c7state : HState :=
  (hipsAddManualTile c7hips c7env 9 0 (some 3) 4 emptyState).2

/- A second claim C7 scenario: a ready survey whose manifest never set
hips_order, so its max order field is 0 (the unset sentinel) and min
order is 0; all tile URLs resolve with bytes that decode fine. -/

def c7bhips : Hips := ⟨6, 0, 0, 0, "jpg", 0, false, []⟩

def c7benv : Env :=
  ⟨true, fun _ _ => (some 1, 9, 200),
   fun _ _ _ _ => (some ⟨some 1, 2, 2, 3, none, none⟩, 12, 0), false, 9⟩

/-- Claim C7 counterexample, two failure modes.  First: with a tile
inserted at order 9 through hips_add_manual_tile, resolving (9,0) on the
ready survey with orders [3,5] returns status 200 from the cache, not
404 — the cache lookup precedes the order-range rejection (src/hips.c
lines 707-728).  Second: on a ready survey whose max order was never set
(the field is 0), resolving order 2 — outside the survey's [0,0] range —
fetches and returns the tile with status 200, because the max-order
rejection is guarded by `hips->order &&` (src/hips.c line 725). -/
theorem claim7_counterexample :
    c7hips.order = 5 ∧ c7hips.orderMin = 3 ∧
    (hipsGetTile_ c7hips c7env 9 0 0 c7state).2.1 = 200 ∧
    ¬ (hipsGetTile_ c7hips c7env 9 0 0 c7state).2.1 = 404 ∧
    c7bhips.order = 0 ∧ c7bhips.orderMin = 0 ∧
    (hipsGetTile_ c7bhips c7benv 2 0 0 emptyState).2.1 = 200 ∧
    ¬ (hipsGetTile_ c7bhips c7benv 2 0 0 emptyState).2.1 = 404 := by
  decide

/-- Claim C7 (amended): for every ready survey whose max order is set
(nonzero), resolving an order outside [min order, max order] at a key
with no cached tile and plain flags returns absent with status 404 and
the state untouched. -/
theorem claim7_amended_theorem (hips : Hips) (env : Env) (order pix : Int)
    (flags : Nat) (s : HState)
    (hready : env.ready = true)
    (hmax : hips.order ≠ 0)
    (hout : hips.order < order ∨ order < hips.orderMin)
    (hfa : flags &&& HIPS_FORCE_USE_ALLSKY = 0)
    (hco : flags &&& HIPS_CACHED_ONLY = 0)
    (hchild : s.cache ⟨hips.hash, order, pix⟩ = none) :
    hipsGetTile_ hips env order pix flags s = (none, 404, s) := by
  have hkey : tileKey hips flags order pix = ⟨hips.hash, order, pix⟩ := by
    simp [tileKey, hfa]
  have hrange : (hips.order ≠ 0 ∧ hips.order < order) ∨ order < hips.orderMin := by
    tauto
  unfold hipsGetTile_
  simp only [hipsGetTileAux, hkey, hchild, hco, hready]
  simp [hrange]

/-- Witness for claim C7 (amended): order 9 on the fresh survey with
orders [3,5] resolves to 404 with the state untouched. -/
theorem claim7_witness :
    hipsGetTile_ c1hips c1env 9 0 0 emptyState = (none, 404, emptyState) :=
  claim7_amended_theorem c1hips c1env 9 0 0 emptyState rfl (by decide)
    (Or.inl (by decide)) (by decide) (by decide) rfl

/-- The hips_tile_format branch of property_handler in isolation: the
property is recorded, the other keys do not match, and the extension is
chosen by the first of the substrings webp, jpeg, png, eph found in the
value (or kept unchanged). -/
theorem propertyHandler_format (h : Hips) (v : String) :
    propertyHandler h ("hips_tile_format") v =
      (let h2 : Hips := { h with properties := h.properties ++ [("hips_tile_format", v)] }
       if strstrB v ("webp") then { h2 with ext := "webp" }
       else if strstrB v ("jpeg") then { h2 with ext := "jpg" }
       else if strstrB v ("png") then { h2 with ext := "png" }
       else if strstrB v ("eph") then { h2 with ext := "eph", allskyNotAvailable := true }
       else h2) := by
  simp only [propertyHandler,
    if_neg (show ¬("hips_tile_format" = "hips_order") by decide),
    if_neg (show ¬("hips_tile_format" = "hips_order_min") by decide),
    if_neg (show ¬("hips_tile_format" = "hips_tile_width") by decide),
    if_neg (show ¬("hips_tile_format" = "hips_release_date") by decide),
    if_pos (show ("hips_tile_format" : String) = "hips_tile_format" from rfl)]
  simp

/-- Claim C6 (amended): the example manifest parses to max order 5, min
order 2, extension png, and a release timestamp equal to the MJD day
number of 2019-01-02T15:27 UTC (58485 + 927/1440); the format tokens
recognized by hips_tile_format are webp, jpeg (giving extension jpg),
png and eph, searched as substrings in that order, and any other value —
including the bare token jpg — is ignored, leaving the extension
unchanged. -/
theorem claim6_amended_theorem :
    (iniParseString manifestExample (hipsCreateModel 0 0)).order = 5 ∧
    (iniParseString manifestExample (hipsCreateModel 0 0)).orderMin = 2 ∧
    (iniParseString manifestExample (hipsCreateModel 0 0)).ext = "png" ∧
    (iniParseString manifestExample (hipsCreateModel 0 0)).releaseDate = 58485 + 927/1440 ∧
    (∀ (h : Hips) (v : String), strstrB v ("webp") = true →
      (propertyHandler h ("hips_tile_format") v).ext = "webp") ∧
    (∀ (h : Hips) (v : String), strstrB v ("webp") = false →
      strstrB v ("jpeg") = true →
      (propertyHandler h ("hips_tile_format") v).ext = "jpg") ∧
    (∀ (h : Hips) (v : String), strstrB v ("webp") = false →
      strstrB v ("jpeg") = false → strstrB v ("png") = true →
      (propertyHandler h ("hips_tile_format") v).ext = "png") ∧
    (∀ (h : Hips) (v : String), strstrB v ("webp") = false →
      strstrB v ("jpeg") = false → strstrB v ("png") = false →
      strstrB v ("eph") = true →
      (propertyHandler h ("hips_tile_format") v).ext = "eph") ∧
    (∀ (h : Hips) (v : String), strstrB v ("webp") = false →
      strstrB v ("jpeg") = false → strstrB v ("png") = false →
      strstrB v ("eph") = false →
      (propertyHandler h ("hips_tile_format") v).ext = h.ext) := by
  refine ⟨by decide, by decide, by decide, ?_, ?_, ?_, ?_, ?_, ?_⟩
  · have h : (iniParseString manifestExample (hipsCreateModel 0 0)).releaseDate =
        mkRat 84219327 1440 := by decide
    rw [h, Rat.mkRat_eq_div]
    norm_num
  · intro h v hw
    rw [propertyHandler_format]
    simp [hw]
  · intro h v hw hj
    rw [propertyHandler_format]
    simp [hw, hj]
  · intro h v hw hj hp
    rw [propertyHandler_format]
    simp [hw, hj, hp]
  · intro h v hw hj hp he
    rw [propertyHandler_format]
    simp [hw, hj, hp, he]
  · intro h v hw hj hp he
    rw [propertyHandler_format]
    simp [hw, hj, hp, he]

/-- Claim C6 counterexample: the bare format token jpg is not recognized
— on a survey whose extension is webp, the manifest line
hips_tile_format = jpg is treated as unknown and ignored (the extension
stays webp instead of becoming jpg), because the code searches for the
substrings webp/jpeg/png/eph (src/hips.c lines 184-193) and none occurs
in the value jpg. -/
theorem claim6_counterexample :
    (propertyHandler { hipsCreateModel 0 0 with ext := "webp" }
        ("hips_tile_format") ("jpg")).ext = "webp" ∧
    ¬ (propertyHandler { hipsCreateModel 0 0 with ext := "webp" }
        ("hips_tile_format") ("jpg")).ext = "jpg" := by
  decide

/-- Witness for claim C6 (amended): the png clause and the
unknown-ignored clause at concrete values. -/
theorem claim6_witness :
    (propertyHandler (hipsCreateModel 0 0) ("hips_tile_format") ("png")).ext = "png" ∧
    (propertyHandler (hipsCreateModel 0 0) ("hips_tile_format") ("tiff")).ext =
      (hipsCreateModel 0 0).ext := by
  constructor
  · exact claim6_amended_theorem.2.2.2.2.2.2.1 (hipsCreateModel 0 0) ("png")
      (by decide) (by decide) (by decide)
  · exact claim6_amended_theorem.2.2.2.2.2.2.2.2 (hipsCreateModel 0 0) ("tiff")
      (by decide) (by decide) (by decide) (by decide)

/-- Case analysis of hips_get_tile_texture: not ready, permanently
absent (loading_complete true), no ancestor found, or payload found and
finished by texFound. -/
theorem texture_shape (hips : Hips) (env : Env) (order pix : Int)
    (flags : Nat) (s : HState) :
    (hipsGetTileTexture hips env order pix flags s =
        (defaultTexRes order pix flags false, s) ∧ env.ready = false)
  ∨ (hipsGetTileTexture hips env order pix flags s =
        (defaultTexRes order pix flags true,
         (texDirect hips env order pix flags s).2.2) ∧
      env.ready = true ∧
      (texDirect hips env order pix flags s).1 = none ∧
      (texDirect hips env order pix flags s).2.1 ≠ 0 ∧
      (texDirect hips env order pix flags s).2.1 ≠ 598)
  ∨ (hipsGetTileTexture hips env order pix flags s =
        (defaultTexRes order pix flags false,
         (texWalked hips env order pix flags s).st) ∧
      env.ready = true ∧
      (texWalked hips env order pix flags s).rt = none ∧
      ¬((texDirect hips env order pix flags s).1 = none ∧
        (texDirect hips env order pix flags s).2.1 ≠ 0 ∧
        (texDirect hips env order pix flags s).2.1 ≠ 598))
  ∨ (∃ rt, (texWalked hips env order pix flags s).rt = some rt ∧
      hipsGetTileTexture hips env order pix flags s =
        texFound hips env order pix flags (texWalked hips env order pix flags s) rt ∧
      env.ready = true ∧
      ¬((texDirect hips env order pix flags s).1 = none ∧
        (texDirect hips env order pix flags s).2.1 ≠ 0 ∧
        (texDirect hips env order pix flags s).2.1 ≠ 598)) := by
  cases hE : env.ready with
  | false => exact Or.inl ⟨by simp [hipsGetTileTexture, hE], rfl⟩
  | true =>
    by_cases hEarly : ((texDirect hips env order pix flags s).1 = none ∧
        (texDirect hips env order pix flags s).2.1 ≠ 0 ∧
        (texDirect hips env order pix flags s).2.1 ≠ 598)
    · exact Or.inr (Or.inl
        ⟨by simp [hipsGetTileTexture, hE, hEarly], rfl, hEarly.1, hEarly.2.1, hEarly.2.2⟩)
    · cases hW : (texWalked hips env order pix flags s).rt with
      | none => exact Or.inr (Or.inr (Or.inl
          ⟨by simp [hipsGetTileTexture, hE, hEarly, hW], rfl, rfl, hEarly⟩))
      | some rt => exact Or.inr (Or.inr (Or.inr
          ⟨rt, rfl, by simp [hipsGetTileTexture, hE, hEarly, hW], rfl, hEarly⟩))

/-- The observable fields of a texFound result. -/
theorem texFound_fields (hips : Hips) (env : Env) (order pix : Int)
    (flags : Nat) (w : WalkRes) (rt : ImgTile) :
    ∃ rt2 : ImgTile,
      (texFound hips env order pix flags w rt).1.usedTile = some rt2 ∧
      (texFound hips env order pix flags w rt).1.tex = optOr rt2.tex rt2.allskyTex ∧
      (texFound hips env order pix flags w rt).1.usedOrder = w.ro ∧
      (texFound hips env order pix flags w rt).1.usedPix = w.rp ∧
      (texFound hips env order pix flags w rt).1.proj =
        mkProj w.ro w.rp (flags &&& HIPS_PLANET == 0) ∧
      (texFound hips env order pix flags w rt).1.loadingComplete =
        decide (w.ro = min order hips.order) ∧
      (texFound hips env order pix flags w rt).1.fade = 1 :=
  ⟨_, rfl, rfl, rfl, rfl, rfl, rfl, rfl⟩

/-- Claim C8: hips_get_tile_texture always builds the output projection
for the node whose texture is actually returned; when the survey is not
ready it returns no texture with the default full-frame UV quad, a
projection for the requested node, and the state untouched; whenever no
tile is used (survey not ready, tile permanently absent, or no ancestor
found) there is no texture, the UV quad is the default, and the node
reported is the originally requested one; and when a tile is used the
texture is read from that tile's payload. -/
theorem claim8_theorem (hips : Hips) (env : Env) (order pix : Int)
    (flags : Nat) (s : HState) :
    (env.ready = false →
      hipsGetTileTexture hips env order pix flags s =
        (defaultTexRes order pix flags false, s)) ∧
    ((hipsGetTileTexture hips env order pix flags s).1.usedTile = none →
      (hipsGetTileTexture hips env order pix flags s).1.tex = none ∧
      (hipsGetTileTexture hips env order pix flags s).1.uv =
        (if (flags &&& HIPS_PLANET == 0 : Bool) then UV_OUT else UV_IN) ∧
      (hipsGetTileTexture hips env order pix flags s).1.usedOrder = order ∧
      (hipsGetTileTexture hips env order pix flags s).1.usedPix = pix) ∧
    ((hipsGetTileTexture hips env order pix flags s).1.proj =
      mkProj (hipsGetTileTexture hips env order pix flags s).1.usedOrder
        (hipsGetTileTexture hips env order pix flags s).1.usedPix
        (flags &&& HIPS_PLANET == 0)) ∧
    (∀ t, (hipsGetTileTexture hips env order pix flags s).1.usedTile = some t →
      (hipsGetTileTexture hips env order pix flags s).1.tex =
        optOr t.tex t.allskyTex) := by
  have hs := texture_shape hips env order pix flags s
  refine ⟨?_, ?_, ?_, ?_⟩
  · intro h
    rcases hs with ⟨he, _⟩ | ⟨_, hr, _⟩ | ⟨_, hr, _⟩ | ⟨rt, _, _, hr, _⟩ <;>
      first
        | exact he
        | (rw [hr] at h; cases h)
  · intro h
    rcases hs with ⟨he, _⟩ | ⟨he, _⟩ | ⟨he, _⟩ | ⟨rt, _, he, _⟩
    · rw [he]; exact ⟨rfl, rfl, rfl, rfl⟩
    · rw [he]; exact ⟨rfl, rfl, rfl, rfl⟩
    · rw [he]; exact ⟨rfl, rfl, rfl, rfl⟩
    · obtain ⟨rt2, h1, _⟩ := texFound_fields hips env order pix flags
        (texWalked hips env order pix flags s) rt
      rw [he] at h
      rw [h1] at h
      cases h
  · rcases hs with ⟨he, _⟩ | ⟨he, _⟩ | ⟨he, _⟩ | ⟨rt, _, he, _⟩
    · rw [he]; rfl
    · rw [he]; rfl
    · rw [he]; rfl
    · obtain ⟨rt2, _, _, h3, h4, h5, _⟩ := texFound_fields hips env order pix flags
        (texWalked hips env order pix flags s) rt
      rw [he, h5, h3, h4]
  · intro t h
    rcases hs with ⟨he, _⟩ | ⟨he, _⟩ | ⟨he, _⟩ | ⟨rt, _, he, _⟩
    · rw [he] at h; cases h
    · rw [he] at h; cases h
    · rw [he] at h; cases h
    · obtain ⟨rt2, h1, h2, _⟩ := texFound_fields hips env order pix flags
        (texWalked hips env order pix flags s) rt
      rw [he] at h ⊢
      rw [h1] at h
      cases h
      exact h2

/-- Claim C3 (amended): for every ready survey, hips_get_tile_texture
sets loading_complete to true if and only if either the tile actually
used has order equal to min(requested order, survey max order), or no
tile is used at all because the direct resolve of the requested tile
(possible only when the requested order does not exceed the survey max)
returned no payload with a permanent status — one that is neither 0
(pending) nor 598 — in which case no texture is returned either. -/
theorem claim3_amended_theorem (hips : Hips) (env : Env) (order pix : Int)
    (flags : Nat) (s : HState) (hready : env.ready = true) :
    ((hipsGetTileTexture hips env order pix flags s).1.loadingComplete = true) ↔
    (((hipsGetTileTexture hips env order pix flags s).1.usedTile ≠ none ∧
      (hipsGetTileTexture hips env order pix flags s).1.usedOrder =
        min order hips.order) ∨
     ((hipsGetTileTexture hips env order pix flags s).1.usedTile = none ∧
      order ≤ hips.order ∧
      (hipsGetTile hips env order pix flags s).1 = none ∧
      (hipsGetTile hips env order pix flags s).2.1 ≠ 0 ∧
      (hipsGetTile hips env order pix flags s).2.1 ≠ 598)) := by
  have hdir : ∀ (_ : order ≤ hips.order),
      texDirect hips env order pix flags s = hipsGetTile hips env order pix flags s := by
    intro h
    simp [texDirect, h]
  rcases texture_shape hips env order pix flags s with
    ⟨_, he⟩ | ⟨he, _, h1, h2, h3⟩ | ⟨he, _, _, hne⟩ | ⟨rt, _, he, _, hne⟩
  · rw [he] at hready
    cases hready
  · rw [he]
    constructor
    · intro _
      right
      have horder : order ≤ hips.order := by
        by_contra hlt
        have hd : texDirect hips env order pix flags s = (none, 0, s) := by
          simp [texDirect, hlt]
        rw [hd] at h2
        exact h2 rfl
      exact ⟨rfl, horder, by rw [← hdir horder]; exact h1,
        by rw [← hdir horder]; exact h2, by rw [← hdir horder]; exact h3⟩
    · intro _
      rfl
  · rw [he]
    constructor
    · intro h
      cases h
    · rintro (⟨hne2, _⟩ | ⟨_, horder, g1, g2, g3⟩)
      · exact absurd rfl hne2
      · exact absurd ⟨by rw [hdir horder]; exact g1,
          by rw [hdir horder]; exact g2, by rw [hdir horder]; exact g3⟩ hne
  · obtain ⟨rt2, f1, _, f3, _, _, f6, _⟩ := texFound_fields hips env order pix flags
      (texWalked hips env order pix flags s) rt
    rw [he, f6, f1, f3]
    simp only [decide_eq_true_eq]
    constructor
    · intro h
      exact Or.inl ⟨by simp, h⟩
    · rintro (⟨_, h⟩ | ⟨h, _⟩)
      · exact h
      · cases h

/-- Claim C3 counterexample: on the ready survey with orders [3,3] whose
tile (3,5) URL returns 404, hips_get_tile_texture reports
loading_complete = true while returning no texture and using no tile at
all — the claimed equivalence "loading_complete iff the tile actually
used is at min(requested, max)" fails, since no tile is used (src/hips.c
lines 366-369 set loading_complete on a permanently absent tile). -/
theorem claim3_counterexample :
    (hipsGetTileTexture c4hips c4env 3 5 0 emptyState).1.loadingComplete = true ∧
    (hipsGetTileTexture c4hips c4env 3 5 0 emptyState).1.usedTile = none ∧
    (hipsGetTileTexture c4hips c4env 3 5 0 emptyState).1.tex = none ∧
    ¬ ((hipsGetTileTexture c4hips c4env 3 5 0 emptyState).1.usedTile ≠ none ∧
       (hipsGetTileTexture c4hips c4env 3 5 0 emptyState).1.usedOrder =
         min 3 c4hips.order) := by
  decide

/- Claim C8 / C3 witness fixtures: a survey with orders [3,5] and a
decoded tile with a live texture cached at (4,7); one ready and one
not-ready environment. -/

def c8hips : Hips := ⟨4, 5, 3, 0, "jpg", 0, false, []⟩

def c8tile : ImgTile := ⟨none, 1, 1, 1, some 4, none⟩

def c8state : HState :=
  ⟨fun k => if k = ⟨4, 4, 7⟩ then some ⟨4, 7, 0, some c8tile, none⟩ else none, 0, 0⟩

def c8env : Env :=
  ⟨true, fun _ _ => (none, 0, 0), fun _ _ _ _ => (none, 0, 0), false, 11⟩

def c8envNR : Env :=
  ⟨false, fun _ _ => (none, 0, 0), fun _ _ _ _ => (none, 0, 0), false, 11⟩

/-- Witness for claim C3 (amended): the equivalence at the concrete
cached tile (4,7) of the [3,5] survey. -/
theorem claim3_witness :
    ((hipsGetTileTexture c8hips c8env 4 7 0 c8state).1.loadingComplete = true) ↔
    (((hipsGetTileTexture c8hips c8env 4 7 0 c8state).1.usedTile ≠ none ∧
      (hipsGetTileTexture c8hips c8env 4 7 0 c8state).1.usedOrder =
        min 4 c8hips.order) ∨
     ((hipsGetTileTexture c8hips c8env 4 7 0 c8state).1.usedTile = none ∧
      (4 : Int) ≤ c8hips.order ∧
      (hipsGetTile c8hips c8env 4 7 0 c8state).1 = none ∧
      (hipsGetTile c8hips c8env 4 7 0 c8state).2.1 ≠ 0 ∧
      (hipsGetTile c8hips c8env 4 7 0 c8state).2.1 ≠ 598)) :=
  claim3_amended_theorem c8hips c8env 4 7 0 c8state rfl

/-- Witness for claim C8: the not-ready default at (4,7), the no-tile
default fields there, and the texture read from the used tile's payload
on the ready survey with the cached tile. -/
theorem claim8_witness :
    (hipsGetTileTexture c8hips c8envNR 4 7 0 emptyState =
      (defaultTexRes 4 7 0 false, emptyState)) ∧
    ((hipsGetTileTexture c8hips c8envNR 4 7 0 emptyState).1.tex = none ∧
     (hipsGetTileTexture c8hips c8envNR 4 7 0 emptyState).1.uv =
       (if (0 &&& HIPS_PLANET == 0 : Bool) then UV_OUT else UV_IN) ∧
     (hipsGetTileTexture c8hips c8envNR 4 7 0 emptyState).1.usedOrder = 4 ∧
     (hipsGetTileTexture c8hips c8envNR 4 7 0 emptyState).1.usedPix = 7) ∧
    (hipsGetTileTexture c8hips c8env 4 7 0 c8state).1.tex =
      optOr c8tile.tex c8tile.allskyTex :=
  ⟨(claim8_theorem c8hips c8envNR 4 7 0 emptyState).1 rfl,
   (claim8_theorem c8hips c8envNR 4 7 0 emptyState).2.1 (by decide),
   (claim8_theorem c8hips c8env 4 7 0 c8state).2.2.2 c8tile (by decide)⟩
